import Mathlib

/-!
Verification of the subreddit fan-out publisher Lambda
(`publish-subreddit` handler: `handler`, `publishSubReddits`,
`getSubRedditList`, `checkEnvSetup`).

The JavaScript source is shallowly embedded: the process environment is a
record of optional strings, the DynamoDB scan and the EventBridge putEvents
calls are modelled as externally supplied outcomes, and each routine returns
the ordered trace of external calls it issued together with its
normal-return / thrown-error result (`Except`).
-/

namespace SubredditPublisher

/-- An error value thrown by the JavaScript code or by an AWS SDK call.
`thrown msg` models `throw Error(msg)` raised by this code itself;
`external id` models an arbitrary error object raised by an SDK call,
carrying an identity so that re-raising "the same error" is expressible. -/
inductive JSError where
  | thrown (msg : String)
  | external (id : Nat)
deriving DecidableEq, Repr

instance {ε α : Type} [DecidableEq ε] [DecidableEq α] : DecidableEq (Except ε α) := fun x y =>
  match x, y with
  | Except.ok a, Except.ok b =>
    if h : a = b then Decidable.isTrue (congrArg Except.ok h)
    else Decidable.isFalse (fun hc => h (Except.ok.inj hc))
  | Except.ok _, Except.error _ => Decidable.isFalse (fun hc => Except.noConfusion hc)
  | Except.error _, Except.ok _ => Decidable.isFalse (fun hc => Except.noConfusion hc)
  | Except.error e, Except.error f =>
    if h : e = f then Decidable.isTrue (congrArg Except.error h)
    else Decidable.isFalse (fun hc => h (Except.error.inj hc))

/-- The process environment variables read by the handler. A `none` models an
unset variable; `some s` a variable set to string `s`. -/
structure ProcessEnv where
  EVENT_BUS_NAME : Option String
  SUBREDDIT_PUBLISH_NAMESPACE : Option String
  SOURCE_DDB_TABLE : Option String
  READ_SUBREDDITS_FROM_DDB : Option String
  SUBREDDITS_TO_FOLLOW : Option String
deriving DecidableEq, Repr

/-- JavaScript truthiness of an environment variable: an unset variable
(`undefined`) and the empty string are falsy; every other string is truthy. -/
def isTruthy : Option String → Bool
  | none => false
  | some s => !(s = "")

/-- One entry of an EventBridge `putEvents` request, as built in
`publishSubReddits`. -/
structure PutEventsRequestEntry where
  EventBusName : Option String
  DetailType : String
  Source : Option String
  Detail : String
deriving DecidableEq, Repr

/-- An EventBridge `putEvents` request: a list of entries. -/
structure PutEventsRequest where
  Entries : List PutEventsRequestEntry
deriving DecidableEq, Repr

/-- The part of the EventBridge `putEvents` response the code inspects. -/
structure PutEventsResponse where
  FailedEntryCount : Nat
deriving DecidableEq, Repr

/-- A DynamoDB string attribute value, as in `item.SUB_REDDIT.S`. -/
structure StringAttributeValue where
  S : String
deriving DecidableEq, Repr

/-- One row returned by the DynamoDB scan: the code reads its `SUB_REDDIT`
string attribute. -/
structure ScanItem where
  SUB_REDDIT : StringAttributeValue
deriving DecidableEq, Repr

/-- The part of the DynamoDB scan response the code inspects: its `Items`. -/
structure ScanResponse where
  Items : List ScanItem
deriving DecidableEq, Repr

/-- An external service call issued by the handler, recorded in traces. -/
inductive ExternalCall where
  | ddbScan (TableName : Option String)
  | putEvents (req : PutEventsRequest)
deriving DecidableEq, Repr

/-- Escape one character as inside a JSON string literal
(`JSON.stringify` escaping for the characters that need it). -/
def jsonEscapeChar (c : Char) : String :=
  if c = '"' then "\\\""
  else if c = '\\' then "\\\\"
  else if c = '\n' then "\\n"
  else if c = '\r' then "\\r"
  else if c = '\t' then "\\t"
  else String.mk [c]

/-- Escape a string as inside a JSON string literal. -/
def jsonEscape (s : String) : String :=
  String.join (s.data.map jsonEscapeChar)

/-- `JSON.stringify(\x7b name: subreddit, type: 'subreddit' \x7d)`:
the serialized payload of one published event. -/
def jsonStringifySubredditDetail (subreddit : String) : String :=
  "\x7b\"name\":\"" ++ jsonEscape subreddit ++ "\",\"type\":\"subreddit\"\x7d"

/-- The single `putEvents` entry `publishSubReddits` builds for one
subreddit identifier. -/
def mkSubredditEntry (env : ProcessEnv) (subreddit : String) : PutEventsRequestEntry :=
  { EventBusName := env.EVENT_BUS_NAME
    DetailType := "subreddit"
    Source := env.SUBREDDIT_PUBLISH_NAMESPACE
    Detail := jsonStringifySubredditDetail subreddit }

/-- JavaScript `String.prototype.split` with a single-character separator,
over the character list: splits at every occurrence of the separator, keeping
empty fields (so it never returns an empty list). -/
def splitCharList (c : Char) : List Char → List (List Char)
  | [] => [[]]
  | x :: xs =>
    let rest := splitCharList c xs
    if x = c then [] :: rest
    else
      match rest with
      | [] => [[x]]
      | y :: ys => (x :: y) :: ys

/-- JavaScript `s.split(c)` for a single-character separator `c`. -/
def jsSplit (s : String) (c : Char) : List String :=
  (splitCharList c s.data).map String.mk

/-- The error message thrown by `checkEnvSetup`. -/
def envNotSetMsg : String :=
  "Some or all of environment variables not set. Please check if \"EVENT_BUS_NAME\", \"SUBREDDIT_PUBLISH_NAMESPACE\", and  \"SOURCE_DDB_TABLE\" variables are set with appropriate values"

/-- `exports.checkEnvSetup`: throws unless `EVENT_BUS_NAME`,
`SUBREDDIT_PUBLISH_NAMESPACE` and `SOURCE_DDB_TABLE` are all truthy. -/
def checkEnvSetup (env : ProcessEnv) : Except JSError Unit :=
  if isTruthy env.EVENT_BUS_NAME && isTruthy env.SUBREDDIT_PUBLISH_NAMESPACE
      && isTruthy env.SOURCE_DDB_TABLE then
    Except.ok ()
  else
    Except.error (JSError.thrown envNotSetMsg)

/-- The error message thrown when neither identifier source is configured. -/
def noSourceMsg : String :=
  "Neither environment variable nor Dynamodb setup for subreddits to follow"

/-- `exports.getSubRedditList`: when `READ_SUBREDDITS_FROM_DDB == 'TRUE'`,
scans the DynamoDB table named by `SOURCE_DDB_TABLE` and projects
`item.SUB_REDDIT.S` over the returned items (re-raising a scan error);
otherwise, when `SUBREDDITS_TO_FOLLOW` is set and non-empty, splits it on
commas; otherwise throws. The outcome of the (at most one) scan call is the
parameter `scan`; the first component of the result is the trace of external
calls issued. -/
def getSubRedditList (env : ProcessEnv) (scan : Except JSError ScanResponse) :
    List ExternalCall × Except JSError (List String) :=
  if env.READ_SUBREDDITS_FROM_DDB = some "TRUE" then
    ([ExternalCall.ddbScan env.SOURCE_DDB_TABLE],
      match scan with
      | Except.ok ddbResponse =>
        Except.ok (ddbResponse.Items.map (fun item => item.SUB_REDDIT.S))
      | Except.error ddbError => Except.error ddbError)
  else
    match env.SUBREDDITS_TO_FOLLOW with
    | some s =>
      if s.length > 0 then ([], Except.ok (jsSplit s ','))
      else ([], Except.error (JSError.thrown noSourceMsg))
    | none => ([], Except.error (JSError.thrown noSourceMsg))

/-- The boolean value of the table-source switch as the code computes it:
`process.env.READ_SUBREDDITS_FROM_DDB == 'TRUE'`. -/
def readSubRedditsFromDDB (env : ProcessEnv) : Bool :=
  env.READ_SUBREDDITS_FROM_DDB = some "TRUE"

/-- The table-scan identifier-source strategy (the first branch of
`getSubRedditList`): one scan call, projecting `item.SUB_REDDIT.S` over the
returned items, re-raising a scan error. -/
def tableScanStrategy (env : ProcessEnv) (scan : Except JSError ScanResponse) :
    List ExternalCall × Except JSError (List String) :=
  ([ExternalCall.ddbScan env.SOURCE_DDB_TABLE],
    match scan with
    | Except.ok ddbResponse =>
      Except.ok (ddbResponse.Items.map (fun item => item.SUB_REDDIT.S))
    | Except.error ddbError => Except.error ddbError)

/-- The static-list identifier-source strategy (the remaining branches of
`getSubRedditList`): split `SUBREDDITS_TO_FOLLOW` on commas when set and
non-empty, else throw. No external call is made. -/
def staticListStrategy (env : ProcessEnv) :
    List ExternalCall × Except JSError (List String) :=
  match env.SUBREDDITS_TO_FOLLOW with
  | some s =>
    if s.length > 0 then ([], Except.ok (jsSplit s ','))
    else ([], Except.error (JSError.thrown noSourceMsg))
  | none => ([], Except.error (JSError.thrown noSourceMsg))

/-- The loop body of `exports.publishSubReddits`, threading the index of the
next bus call: for each subreddit, issues one `putEvents` call with a single
entry; a thrown bus error is re-raised, aborting the remaining iteration; an
accepted call continues regardless of its `FailedEntryCount`. `bus i` is the
outcome of the i-th `putEvents` call (0-indexed). -/
def publishLoop (env : ProcessEnv) (bus : Nat → Except JSError PutEventsResponse) :
    Nat → List String → List ExternalCall × Except JSError Unit
  | _, [] => ([], Except.ok ())
  | i, subreddit :: rest =>
    let call := ExternalCall.putEvents { Entries := [mkSubredditEntry env subreddit] }
    match bus i with
    | Except.error e => ([call], Except.error e)
    | Except.ok _response =>
      let next := publishLoop env bus (i + 1) rest
      (call :: next.1, next.2)

/-- `exports.publishSubReddits`: iterates the identifier list in order,
starting from bus call index 0. -/
def publishSubReddits (env : ProcessEnv) (bus : Nat → Except JSError PutEventsResponse)
    (subreddits : List String) : List ExternalCall × Except JSError Unit :=
  publishLoop env bus 0 subreddits

/-- `exports.handler`: checks the environment, obtains the subreddit list,
and publishes it; each step's thrown error aborts the invocation. Returns
the full ordered trace of external calls and the invocation outcome. -/
def handler (env : ProcessEnv) (scan : Except JSError ScanResponse)
    (bus : Nat → Except JSError PutEventsResponse) :
    List ExternalCall × Except JSError Unit :=
  match checkEnvSetup env with
  | Except.error e => ([], Except.error e)
  | Except.ok _ =>
    match getSubRedditList env scan with
    | (calls, Except.error e) => (calls, Except.error e)
    | (calls, Except.ok subreddits) =>
      let pub := publishSubReddits env bus subreddits
      (calls ++ pub.1, pub.2)

/-! ## Concrete inputs used by witnesses -/

/-- A fully configured environment with the static list source selected. -/
def envA : ProcessEnv :=
  { EVENT_BUS_NAME := some "bus1"
    SUBREDDIT_PUBLISH_NAMESPACE := some "ns1"
    SOURCE_DDB_TABLE := some "t1"
    READ_SUBREDDITS_FROM_DDB := none
    SUBREDDITS_TO_FOLLOW := some "sub1,sub2" }

/-- A fully configured environment with the table-scan source selected. -/
def envB : ProcessEnv :=
  { EVENT_BUS_NAME := some "bus1"
    SUBREDDIT_PUBLISH_NAMESPACE := some "ns1"
    SOURCE_DDB_TABLE := some "t1"
    READ_SUBREDDITS_FROM_DDB := some "TRUE"
    SUBREDDITS_TO_FOLLOW := none }

/-- An environment missing the required `SOURCE_DDB_TABLE` variable. -/
def envMissingTable : ProcessEnv :=
  { EVENT_BUS_NAME := some "bus1"
    SUBREDDIT_PUBLISH_NAMESPACE := some "ns1"
    SOURCE_DDB_TABLE := none
    READ_SUBREDDITS_FROM_DDB := none
    SUBREDDITS_TO_FOLLOW := some "sub1" }

/-- A static-list environment whose list is the three-token string. -/
def envC : ProcessEnv :=
  { EVENT_BUS_NAME := some "bus1"
    SUBREDDIT_PUBLISH_NAMESPACE := some "ns1"
    SOURCE_DDB_TABLE := some "t1"
    READ_SUBREDDITS_FROM_DDB := none
    SUBREDDITS_TO_FOLLOW := some "a,b,c" }

/-- A static-list environment whose list has consecutive and trailing
commas. -/
def envD : ProcessEnv :=
  { EVENT_BUS_NAME := some "bus1"
    SUBREDDIT_PUBLISH_NAMESPACE := some "ns1"
    SOURCE_DDB_TABLE := some "t1"
    READ_SUBREDDITS_FROM_DDB := none
    SUBREDDITS_TO_FOLLOW := some "a,,b," }

/-- A scan response with three rows, two of them holding the same value. -/
def scanRespB : ScanResponse :=
  { Items := [{ SUB_REDDIT := { S := "r1" } }, { SUB_REDDIT := { S := "r2" } },
              { SUB_REDDIT := { S := "r1" } }] }

/-! ## Helper lemmas about the publish loop -/

/-- If every bus call from index `i` on (one per remaining identifier) is
accepted, the loop issues one single-entry `putEvents` call per identifier,
in list order, and returns normally. -/
theorem publishLoop_ok (env : ProcessEnv) (bus : Nat → Except JSError PutEventsResponse) :
    ∀ (l : List String) (i : Nat),
      (∀ j, j < l.length → ∃ r, bus (i + j) = Except.ok r) →
      publishLoop env bus i l =
        (l.map (fun s => ExternalCall.putEvents { Entries := [mkSubredditEntry env s] }),
         Except.ok ())
  | [], _, _ => by simp [publishLoop]
  | s :: rest, i, h => by
    obtain ⟨r, hr⟩ := h 0 (Nat.succ_pos _)
    rw [Nat.add_zero] at hr
    have ihres := publishLoop_ok env bus rest (i + 1) (fun j hj => by
      have h2 := h (j + 1) (Nat.succ_lt_succ hj)
      have e : i + (j + 1) = (i + 1) + j := by omega
      rwa [e] at h2)
    simp [publishLoop, hr, ihres]

/-- If the bus calls for the first `m` remaining identifiers are accepted and
the call for the next one (relative index `m`) throws, the loop issues exactly
the first `m + 1` calls and re-raises that error. -/
theorem publishLoop_error (env : ProcessEnv) (bus : Nat → Except JSError PutEventsResponse) :
    ∀ (l : List String) (i m : Nat) (e : JSError),
      m < l.length →
      (∀ j, j < m → ∃ r, bus (i + j) = Except.ok r) →
      bus (i + m) = Except.error e →
      publishLoop env bus i l =
        ((l.take (m + 1)).map
          (fun s => ExternalCall.putEvents { Entries := [mkSubredditEntry env s] }),
         Except.error e)
  | [], _, m, _, hm, _, _ => absurd hm (Nat.not_lt_zero m)
  | s :: rest, i, 0, e, _, _, herr => by
    rw [Nat.add_zero] at herr
    simp [publishLoop, herr]
  | s :: rest, i, m + 1, e, hm, hok, herr => by
    obtain ⟨r, hr⟩ := hok 0 (Nat.succ_pos m)
    rw [Nat.add_zero] at hr
    have ihres := publishLoop_error env bus rest (i + 1) m e
      (Nat.lt_of_succ_lt_succ hm)
      (fun j hj => by
        have h2 := hok (j + 1) (Nat.succ_lt_succ hj)
        have eeq : i + (j + 1) = (i + 1) + j := by omega
        rwa [eeq] at h2)
      (by
        have eeq : i + (m + 1) = (i + 1) + m := by omega
        rwa [eeq] at herr)
    simp [publishLoop, hr, ihres]

/-- A string containing no occurrence of the separator splits into the single
field holding the whole string. -/
theorem splitCharList_of_not_mem (c : Char) :
    ∀ (l : List Char), c ∉ l → splitCharList c l = [l]
  | [], _ => rfl
  | x :: xs, h => by
    have hx : ¬x = c := by
      intro hxc
      exact h (by simp [hxc])
    have ih := splitCharList_of_not_mem c xs (fun hm => h (List.mem_cons_of_mem x hm))
    simp [splitCharList, hx, ih]

/-- `s.split(c)` on a string not containing `c` yields the one-element
sequence `[s]`. -/
theorem jsSplit_single_token (s : String) (c : Char) (h : c ∉ s.data) :
    jsSplit s c = [s] := by
  rw [jsSplit, splitCharList_of_not_mem c s.data h]
  rfl

/-! ## Claims about the fan-out publisher -/

/-- C1: for every identifier list of length N, when every bus put call
succeeds with a zero failed-entry count, the publisher makes exactly N put
calls, one per identifier in list order, each carrying a single entry whose
destination is the configured bus name, whose detail type is the constant
label "subreddit", whose source is the configured namespace, and whose
payload is the serialized record of the i-th identifier with type
"subreddit". -/
theorem publish_one_event_per_identifier (env : ProcessEnv)
    (bus : Nat → Except JSError PutEventsResponse) (subreddits : List String)
    (hbus : ∀ i, i < subreddits.length →
      ∃ r, bus i = Except.ok r ∧ r.FailedEntryCount = 0) :
    publishSubReddits env bus subreddits =
      (subreddits.map (fun s => ExternalCall.putEvents
        { Entries := [{ EventBusName := env.EVENT_BUS_NAME
                        DetailType := "subreddit"
                        Source := env.SUBREDDIT_PUBLISH_NAMESPACE
                        Detail := jsonStringifySubredditDetail s }] }),
       Except.ok ()) := by
  have h := publishLoop_ok env bus subreddits 0 (fun j hj => by
    obtain ⟨r, hr, _⟩ := hbus j hj
    exact ⟨r, by simpa using hr⟩)
  simpa [publishSubReddits, mkSubredditEntry] using h

/-- Witness for C1: publishing `["sub1", "sub2"]` over a bus that accepts
every call with zero failed entries makes exactly the two expected calls. -/
theorem publish_one_event_per_identifier_witness :
    publishSubReddits envA (fun _ => Except.ok { FailedEntryCount := 0 }) ["sub1", "sub2"] =
      ([ExternalCall.putEvents
          { Entries := [{ EventBusName := some "bus1"
                          DetailType := "subreddit"
                          Source := some "ns1"
                          Detail := "\x7b\"name\":\"sub1\",\"type\":\"subreddit\"\x7d" }] },
        ExternalCall.putEvents
          { Entries := [{ EventBusName := some "bus1"
                          DetailType := "subreddit"
                          Source := some "ns1"
                          Detail := "\x7b\"name\":\"sub2\",\"type\":\"subreddit\"\x7d" }] }],
       Except.ok ()) := by
  have h := publish_one_event_per_identifier envA
    (fun _ => Except.ok { FailedEntryCount := 0 }) ["sub1", "sub2"]
    (fun i _ => ⟨{ FailedEntryCount := 0 }, rfl, rfl⟩)
  exact h.trans rfl

/-- C2: if the bus put call for item k (1-indexed) raises a transport error
while the earlier calls were accepted, then exactly calls 1..k are attempted
(in list order) and the error is re-raised, so the publisher fails. -/
theorem publish_aborts_on_bus_error (env : ProcessEnv)
    (bus : Nat → Except JSError PutEventsResponse) (subreddits : List String)
    (k : Nat) (e : JSError)
    (hk : 1 ≤ k) (hkN : k ≤ subreddits.length)
    (hok : ∀ j, j + 1 < k → ∃ r, bus j = Except.ok r)
    (herr : bus (k - 1) = Except.error e) :
    publishSubReddits env bus subreddits =
      ((subreddits.take k).map
        (fun s => ExternalCall.putEvents { Entries := [mkSubredditEntry env s] }),
       Except.error e) := by
  obtain ⟨m, rfl⟩ : ∃ m, k = m + 1 := ⟨k - 1, by omega⟩
  have h := publishLoop_error env bus subreddits 0 m e (by omega)
    (fun j hj => by
      obtain ⟨r, hr⟩ := hok j (by omega)
      exact ⟨r, by simpa using hr⟩)
    (by simpa using herr)
  simpa [publishSubReddits] using h

/-- Witness for C2: over `["a", "b", "c"]` with a bus that accepts call 0 and
throws on call 1, exactly the first two calls are made and the error
propagates. -/
theorem publish_aborts_on_bus_error_witness :
    publishSubReddits envA
      (fun i => if i = 0 then Except.ok { FailedEntryCount := 0 }
                else Except.error (JSError.external 7))
      ["a", "b", "c"] =
      ([ExternalCall.putEvents { Entries := [mkSubredditEntry envA "a"] },
        ExternalCall.putEvents { Entries := [mkSubredditEntry envA "b"] }],
       Except.error (JSError.external 7)) := by
  have h := publish_aborts_on_bus_error envA
    (fun i => if i = 0 then Except.ok { FailedEntryCount := 0 }
              else Except.error (JSError.external 7))
    ["a", "b", "c"] 2 (JSError.external 7)
    (by decide) (by decide)
    (fun j hj => by
      have hj0 : j = 0 := by omega
      subst hj0
      exact ⟨{ FailedEntryCount := 0 }, rfl⟩)
    rfl
  exact h.trans rfl

/-- C3: if every bus put call returns a response (possibly with a positive
failed-entry count) and none raises, all N calls are attempted in order and
the publisher returns normally. -/
theorem publish_continues_past_rejections (env : ProcessEnv)
    (bus : Nat → Except JSError PutEventsResponse) (subreddits : List String)
    (hbus : ∀ i, i < subreddits.length → ∃ r, bus i = Except.ok r) :
    publishSubReddits env bus subreddits =
      (subreddits.map (fun s => ExternalCall.putEvents { Entries := [mkSubredditEntry env s] }),
       Except.ok ()) := by
  have h := publishLoop_ok env bus subreddits 0 (fun j hj => by
    obtain ⟨r, hr⟩ := hbus j hj
    exact ⟨r, by simpa using hr⟩)
  simpa [publishSubReddits] using h

/-- Witness for C3: a bus that accepts every call but reports one failed
entry each time still sees all three calls, and the publisher succeeds. -/
theorem publish_continues_past_rejections_witness :
    publishSubReddits envA (fun _ => Except.ok { FailedEntryCount := 1 }) ["a", "b", "c"] =
      ([ExternalCall.putEvents { Entries := [mkSubredditEntry envA "a"] },
        ExternalCall.putEvents { Entries := [mkSubredditEntry envA "b"] },
        ExternalCall.putEvents { Entries := [mkSubredditEntry envA "c"] }],
       Except.ok ()) := by
  have h := publish_continues_past_rejections envA
    (fun _ => Except.ok { FailedEntryCount := 1 }) ["a", "b", "c"]
    (fun i _ => ⟨{ FailedEntryCount := 1 }, rfl⟩)
  exact h.trans rfl

/-! ## Claims about configuration checking and the identifier source -/

/-- C4: whenever any of the three required environment variables (bus name,
source namespace, persistent-table name) is missing or empty, the invocation
throws the configuration error and issues zero external calls: no scan and
no publish call appears in the trace. -/
theorem handler_config_error_no_calls (env : ProcessEnv)
    (scan : Except JSError ScanResponse) (bus : Nat → Except JSError PutEventsResponse)
    (h : env.EVENT_BUS_NAME = none ∨ env.EVENT_BUS_NAME = some ""
      ∨ env.SUBREDDIT_PUBLISH_NAMESPACE = none ∨ env.SUBREDDIT_PUBLISH_NAMESPACE = some ""
      ∨ env.SOURCE_DDB_TABLE = none ∨ env.SOURCE_DDB_TABLE = some "") :
    handler env scan bus = ([], Except.error (JSError.thrown envNotSetMsg)) := by
  rcases h with h | h | h | h | h | h <;>
    simp [handler, checkEnvSetup, isTruthy, h]

/-- Witness for C4: with `SOURCE_DDB_TABLE` unset, the handler makes no
external call and fails with the configuration error. -/
theorem handler_config_error_no_calls_witness :
    handler envMissingTable (Except.ok { Items := [] }) (fun _ => Except.ok { FailedEntryCount := 0 }) =
      ([], Except.error (JSError.thrown envNotSetMsg)) :=
  handler_config_error_no_calls envMissingTable (Except.ok { Items := [] })
    (fun _ => Except.ok { FailedEntryCount := 0 })
    (Or.inr (Or.inr (Or.inr (Or.inr (Or.inl rfl)))))

/-- C5: the identifier-source strategy is selected by the boolean value of
the table-source switch alone: when it is true the list comes from the table
scan, otherwise (false or absent) from the static configured list. -/
theorem source_strategy_selected_by_switch (env : ProcessEnv)
    (scan : Except JSError ScanResponse) :
    getSubRedditList env scan =
      if readSubRedditsFromDDB env then tableScanStrategy env scan
      else staticListStrategy env := by
  by_cases h : env.READ_SUBREDDITS_FROM_DDB = some "TRUE" <;>
    simp [getSubRedditList, readSubRedditsFromDDB, tableScanStrategy, staticListStrategy, h]

/-- C6: with the table source enabled and a successful scan, the produced
identifier list is exactly the projection of the `SUB_REDDIT` string
attribute over the scanned rows, in scan order, with no deduplication and no
reordering. -/
theorem table_scan_ordered_projection (env : ProcessEnv)
    (scan : Except JSError ScanResponse) (resp : ScanResponse)
    (hsw : env.READ_SUBREDDITS_FROM_DDB = some "TRUE")
    (hscan : scan = Except.ok resp) :
    getSubRedditList env scan =
      ([ExternalCall.ddbScan env.SOURCE_DDB_TABLE],
       Except.ok (resp.Items.map (fun item => item.SUB_REDDIT.S))) := by
  subst hscan
  simp [getSubRedditList, hsw]

/-- Witness for C6: a scan returning rows `r1, r2, r1` yields the list
`["r1", "r2", "r1"]` — duplicates kept, order preserved. -/
theorem table_scan_ordered_projection_witness :
    getSubRedditList envB (Except.ok scanRespB) =
      ([ExternalCall.ddbScan (some "t1")], Except.ok ["r1", "r2", "r1"]) := by
  have h := table_scan_ordered_projection envB (Except.ok scanRespB) scanRespB rfl rfl
  exact h.trans rfl

/-- C7: with the table-source switch off, splitting the configured string
"a,b,c" on commas yields exactly ["a", "b", "c"]; splitting a non-empty
single-token string (no comma) yields the one-element sequence; and an
absent or empty static string is a configuration error: no list is produced
and an error is thrown. -/
theorem static_list_splitting (env : ProcessEnv)
    (scan : Except JSError ScanResponse)
    (hsw : env.READ_SUBREDDITS_FROM_DDB ≠ some "TRUE") :
    (env.SUBREDDITS_TO_FOLLOW = some "a,b,c" →
      getSubRedditList env scan = ([], Except.ok ["a", "b", "c"])) ∧
    (∀ s, env.SUBREDDITS_TO_FOLLOW = some s → 0 < s.length → ',' ∉ s.data →
      getSubRedditList env scan = ([], Except.ok [s])) ∧
    ((env.SUBREDDITS_TO_FOLLOW = none ∨ env.SUBREDDITS_TO_FOLLOW = some "") →
      getSubRedditList env scan = ([], Except.error (JSError.thrown noSourceMsg))) := by
  refine ⟨?_, ?_, ?_⟩
  · intro h
    unfold getSubRedditList
    rw [if_neg hsw, h]
    decide
  · intro s hs hlen hnc
    unfold getSubRedditList
    rw [if_neg hsw, hs]
    simp [hlen, jsSplit_single_token s ',' hnc]
  · intro h
    unfold getSubRedditList
    rcases h with h | h
    · rw [if_neg hsw, h]
    · rw [if_neg hsw, h]
      decide

/-- Witness for C7: splitting the configured string "a,b,c" yields
["a", "b", "c"]. -/
theorem static_list_splitting_witness :
    getSubRedditList envC (Except.ok { Items := [] }) = ([], Except.ok ["a", "b", "c"]) :=
  (static_list_splitting envC (Except.ok { Items := [] }) (by decide)).1 rfl

/-- C8: with the table source enabled, a scan error is re-raised unmodified
(same error value, no internal retry) and the invocation fails before any
publish call: the trace holds the single scan call and nothing else. -/
theorem scan_error_propagates_before_publish (env : ProcessEnv)
    (scan : Except JSError ScanResponse) (bus : Nat → Except JSError PutEventsResponse)
    (e : JSError)
    (henv : checkEnvSetup env = Except.ok ())
    (hsw : env.READ_SUBREDDITS_FROM_DDB = some "TRUE")
    (hscan : scan = Except.error e) :
    handler env scan bus = ([ExternalCall.ddbScan env.SOURCE_DDB_TABLE], Except.error e) := by
  subst hscan
  simp [handler, henv, getSubRedditList, hsw]

/-- Witness for C8: a failing scan makes the handler fail with that same
error, after the one scan call and zero publish calls. -/
theorem scan_error_propagates_before_publish_witness :
    handler envB (Except.error (JSError.external 3)) (fun _ => Except.ok { FailedEntryCount := 0 }) =
      ([ExternalCall.ddbScan (some "t1")], Except.error (JSError.external 3)) := by
  have h := scan_error_propagates_before_publish envB (Except.error (JSError.external 3))
    (fun _ => Except.ok { FailedEntryCount := 0 }) (JSError.external 3) rfl rfl rfl
  exact h.trans rfl

/-- C9: the publisher makes zero bus calls on the empty identifier list and
returns normally; with a valid environment and a scan returning zero rows,
the whole invocation completes successfully after the single scan call. -/
theorem empty_list_publishes_nothing (env : ProcessEnv)
    (scan : Except JSError ScanResponse) (bus : Nat → Except JSError PutEventsResponse)
    (henv : checkEnvSetup env = Except.ok ())
    (hsw : env.READ_SUBREDDITS_FROM_DDB = some "TRUE")
    (hscan : scan = Except.ok { Items := [] }) :
    publishSubReddits env bus [] = ([], Except.ok ()) ∧
    handler env scan bus = ([ExternalCall.ddbScan env.SOURCE_DDB_TABLE], Except.ok ()) := by
  subst hscan
  constructor
  · rfl
  · simp [handler, henv, getSubRedditList, hsw, publishSubReddits, publishLoop]

/-- Witness for C9: a zero-row scan leads to a successful invocation with no
publish call. -/
theorem empty_list_publishes_nothing_witness :
    publishSubReddits envB (fun _ => Except.ok { FailedEntryCount := 0 }) [] =
      ([], Except.ok ()) ∧
    handler envB (Except.ok { Items := [] }) (fun _ => Except.ok { FailedEntryCount := 0 }) =
      ([ExternalCall.ddbScan (some "t1")], Except.ok ()) := by
  have h := empty_list_publishes_nothing envB (Except.ok { Items := [] })
    (fun _ => Except.ok { FailedEntryCount := 0 }) rfl rfl rfl
  exact ⟨h.1, h.2.trans rfl⟩

/-- C10: static-list tokens are published verbatim with no trimming and no
presence check: the configured string "a,,b," splits into the four tokens
"a", "", "b", "" and, with a bus accepting every call, one event is
published for each token, the empty-string ones included. -/
theorem static_tokens_published_verbatim (env : ProcessEnv)
    (scan : Except JSError ScanResponse) (bus : Nat → Except JSError PutEventsResponse)
    (henv : checkEnvSetup env = Except.ok ())
    (hsw : env.READ_SUBREDDITS_FROM_DDB ≠ some "TRUE")
    (hstatic : env.SUBREDDITS_TO_FOLLOW = some "a,,b,")
    (hbus : ∀ i, i < 4 → ∃ r, bus i = Except.ok r) :
    handler env scan bus =
      (["a", "", "b", ""].map
        (fun s => ExternalCall.putEvents { Entries := [mkSubredditEntry env s] }),
       Except.ok ()) := by
  have hlist : getSubRedditList env scan = ([], Except.ok ["a", "", "b", ""]) := by
    unfold getSubRedditList
    rw [if_neg hsw, hstatic]
    decide
  have hpub := publishLoop_ok env bus ["a", "", "b", ""] 0 (fun j hj => by
    obtain ⟨r, hr⟩ := hbus j (by simpa using hj)
    exact ⟨r, by simpa using hr⟩)
  simp [handler, henv, hlist, publishSubReddits, hpub]

/-- Witness for C10: with the static string "a,,b,", four events are
published, two of them carrying the empty-string name. -/
theorem static_tokens_published_verbatim_witness :
    handler envD (Except.ok { Items := [] }) (fun _ => Except.ok { FailedEntryCount := 0 }) =
      ([ExternalCall.putEvents
          { Entries := [{ EventBusName := some "bus1"
                          DetailType := "subreddit"
                          Source := some "ns1"
                          Detail := "\x7b\"name\":\"a\",\"type\":\"subreddit\"\x7d" }] },
        ExternalCall.putEvents
          { Entries := [{ EventBusName := some "bus1"
                          DetailType := "subreddit"
                          Source := some "ns1"
                          Detail := "\x7b\"name\":\"\",\"type\":\"subreddit\"\x7d" }] },
        ExternalCall.putEvents
          { Entries := [{ EventBusName := some "bus1"
                          DetailType := "subreddit"
                          Source := some "ns1"
                          Detail := "\x7b\"name\":\"b\",\"type\":\"subreddit\"\x7d" }] },
        ExternalCall.putEvents
          { Entries := [{ EventBusName := some "bus1"
                          DetailType := "subreddit"
                          Source := some "ns1"
                          Detail := "\x7b\"name\":\"\",\"type\":\"subreddit\"\x7d" }] }],
       Except.ok ()) := by
  have h := static_tokens_published_verbatim envD (Except.ok { Items := [] })
    (fun _ => Except.ok { FailedEntryCount := 0 }) rfl (by decide) rfl
    (fun i _ => ⟨{ FailedEntryCount := 0 }, rfl⟩)
  exact h.trans rfl

end SubredditPublisher
